import Mathlib

/-!
Shallow embedding of the Metropolis-Hastings acceptance engine of
`Metropolis.h` (class `Metropolis`) from the CDT-plusplus repository.

Counters and configuration counts are `uintmax_t` in the source; they are
modelled as `Nat` with arithmetic taken modulo `2^64` (`wordSize`) wherever
the source performs `uintmax_t` arithmetic, so that wraparound is faithful.

The triangulation itself, the Move Classifier, the Move Executor's geometric
work and the Action Evaluator are external collaborators (their headers
`S3ErgodicMoves.h` / `S3Action.h` are not part of the analysed sources);
they are abstracted as parameters, with ghost instrumentation recording
which collaborator was invoked on which arguments.
-/

/-- Word size of `uintmax_t` on the reference platform: arithmetic on the
counters and configuration counts wraps modulo this value. -/
def wordSize : ℕ := 2 ^ 64

/-- Increment of a `uintmax_t` value (`++x`). -/
def winc (x : ℕ) : ℕ := (x + 1) % wordSize

/-- Addition on `uintmax_t` values (`x += k`). -/
def wadd (x k : ℕ) : ℕ := (x + k) % wordSize

/-- Subtraction on `uintmax_t` values (`x - k` with wraparound), for
`k ≤ wordSize`. -/
def wsub (x k : ℕ) : ℕ := (x + (wordSize - k)) % wordSize

/-- The `move_type` enumeration: `TWO_THREE = 0`, `THREE_TWO = 1`,
`TWO_SIX = 2`, `SIX_TWO = 3`, `FOUR_FOUR = 4`. -/
inductive move_type where
  | TWO_THREE : move_type
  | THREE_TWO : move_type
  | TWO_SIX : move_type
  | SIX_TWO : move_type
  | FOUR_FOUR : move_type
deriving DecidableEq, Repr

/-- The `move_tuple` type, `std::tuple` of five `uintmax_t` counters; field
`mI` is `std::get<I>`. -/
structure move_tuple where
  m0 : ℕ
  m1 : ℕ
  m2 : ℕ
  m3 : ℕ
  m4 : ℕ
deriving DecidableEq, Repr

/-- Slot of a `move_tuple` selected by a `move_type`, mirroring the
`switch (move) ... std::get<i>` dispatch pattern of the source. -/
def move_tuple.slot (t : move_tuple) : move_type → ℕ
  | move_type.TWO_THREE => t.m0
  | move_type.THREE_TWO => t.m1
  | move_type.TWO_SIX => t.m2
  | move_type.SIX_TWO => t.m3
  | move_type.FOUR_FOUR => t.m4

/-- Increment (mod `2^64`) of the slot of a `move_tuple` selected by a
`move_type` (`++std::get<i>(t)`). -/
def move_tuple.bump (t : move_tuple) : move_type → move_tuple
  | move_type.TWO_THREE => { t with m0 := winc t.m0 }
  | move_type.THREE_TWO => { t with m1 := winc t.m1 }
  | move_type.TWO_SIX => { t with m2 := winc t.m2 }
  | move_type.SIX_TWO => { t with m3 := winc t.m3 }
  | move_type.FOUR_FOUR => { t with m4 := winc t.m4 }

/-- Mutable state of a `Metropolis` object: the three Configuration Counts
`N1_TL_`, `N3_31_`, `N3_22_` and the two counter tuples `attempted_moves_`
and `successful_moves_`.  Two ghost fields instrument externally observable
events without influencing any computed value: `executorCalls` records each
Move Executor invocation (`make_23_move` / `make_32_move` / `make_26_move`)
in order, and `attemptMoveInvocations` counts calls to `attempt_move`. -/
structure MetropolisState where
  N1_TL : ℕ
  N3_31 : ℕ
  N3_22 : ℕ
  attempted_moves : move_tuple
  successful_moves : move_tuple
  executorCalls : List move_type
  attemptMoveInvocations : ℕ
deriving DecidableEq, Repr

/-- State of a freshly constructed `Metropolis` object: counts and both
counter tuples are zero-initialised (`N1_TL_ {0}`, `move_tuple {0,0,0,0,0}`),
no collaborator has been invoked yet. -/
def initialState : MetropolisState :=
  { N1_TL := 0
    N3_31 := 0
    N3_22 := 0
    attempted_moves := ⟨0, 0, 0, 0, 0⟩
    successful_moves := ⟨0, 0, 0, 0, 0⟩
    executorCalls := []
    attemptMoveInvocations := 0 }

/-- Modelled from the spec: the Move Executor `make_23_move` (defined in
`S3ErgodicMoves.h`, which is not among the analysed sources) "must itself
increment a shared attempted counter exactly once per invocation regardless
of geometric feasibility"; it receives `attempted_moves_` by reference and
increments the (2,3) slot.  Its mutation of the triangulation itself is
outside the embedded state; the ghost field records the invocation. -/
def make_23_move (s : MetropolisState) : MetropolisState :=
  { s with
    attempted_moves := s.attempted_moves.bump move_type.TWO_THREE
    executorCalls := s.executorCalls ++ [move_type.TWO_THREE] }

/-- Modelled from the spec: the Move Executor `make_32_move` (defined in
`S3ErgodicMoves.h`, not among the analysed sources) increments the (3,2)
slot of the shared attempted counter exactly once per invocation. -/
def make_32_move (s : MetropolisState) : MetropolisState :=
  { s with
    attempted_moves := s.attempted_moves.bump move_type.THREE_TWO
    executorCalls := s.executorCalls ++ [move_type.THREE_TWO] }

/-- Modelled from the spec: the Move Executor `make_26_move` (defined in
`S3ErgodicMoves.h`, not among the analysed sources) increments the (2,6)
slot of the shared attempted counter exactly once per invocation. -/
def make_26_move (s : MetropolisState) : MetropolisState :=
  { s with
    attempted_moves := s.attempted_moves.bump move_type.TWO_SIX
    executorCalls := s.executorCalls ++ [move_type.TWO_SIX] }

/-- The mutating part of `Metropolis::attempt_move`.  The source first
computes `a1`, `a2` and a random `trial` and branches on `trial <= a1*a2`;
those computations have no effect on the embedded state, so the outcome of
the comparison enters as the boolean `accepted`.  On acceptance it switches
on the move kind: (2,3) calls `make_23_move` then increments `N3_22_`,
`N1_TL_` and `successful_moves_` slot 0; (3,2) calls `make_32_move` then
decrements `N3_22_`, `N1_TL_` and increments slot 1; (2,6) calls
`make_26_move` then adds 4 to `N3_31_`, 2 to `N1_TL_` and increments slot 2;
the (6,2) and (4,4) cases only print.  On rejection it increments
`attempted_moves_` at the proposed kind's slot and nothing else. -/
def attempt_move (move : move_type) (accepted : Bool) (s : MetropolisState) :
    MetropolisState :=
  let s0 := { s with attemptMoveInvocations := s.attemptMoveInvocations + 1 }
  if accepted then
    match move with
    | move_type.TWO_THREE =>
      let s1 := make_23_move s0
      { s1 with
        N3_22 := winc s1.N3_22
        N1_TL := winc s1.N1_TL
        successful_moves := s1.successful_moves.bump move_type.TWO_THREE }
    | move_type.THREE_TWO =>
      let s1 := make_32_move s0
      { s1 with
        N3_22 := wsub s1.N3_22 1
        N1_TL := wsub s1.N1_TL 1
        successful_moves := s1.successful_moves.bump move_type.THREE_TWO }
    | move_type.TWO_SIX =>
      let s1 := make_26_move s0
      { s1 with
        N3_31 := wadd s1.N3_31 4
        N1_TL := wadd s1.N1_TL 2
        successful_moves := s1.successful_moves.bump move_type.TWO_SIX }
    | move_type.SIX_TWO => s0
    | move_type.FOUR_FOUR => s0
  else
    { s0 with attempted_moves := s0.attempted_moves.bump move }

/-- First seeding block of `Metropolis::operator()`: an unconditional
`make_23_move` followed by `++N3_22_`, `++N1_TL_` and the increment of
`successful_moves_` slot 0. -/
def seed23Block (s : MetropolisState) : MetropolisState :=
  let s1 := make_23_move s
  { s1 with
    N3_22 := winc s1.N3_22
    N1_TL := winc s1.N1_TL
    successful_moves := s1.successful_moves.bump move_type.TWO_THREE }

/-- Second seeding block of `Metropolis::operator()`: an unconditional
`make_32_move` followed by `--N3_22_`, `--N1_TL_` and the increment of
`successful_moves_` slot 1. -/
def seed32Block (s : MetropolisState) : MetropolisState :=
  let s1 := make_32_move s
  { s1 with
    N3_22 := wsub s1.N3_22 1
    N1_TL := wsub s1.N1_TL 1
    successful_moves := s1.successful_moves.bump move_type.THREE_TWO }

/-- Third seeding block of `Metropolis::operator()`: an unconditional
`make_26_move` followed by `N3_31_ += 4`, `N1_TL_ += 2` and the increment of
`successful_moves_` slot 2. -/
def seed26Block (s : MetropolisState) : MetropolisState :=
  let s1 := make_26_move s
  { s1 with
    N3_31 := wadd s1.N3_31 4
    N1_TL := wadd s1.N1_TL 2
    successful_moves := s1.successful_moves.bump move_type.TWO_SIX }

/-- Seeding phase of `Metropolis::operator()` (after the counts have been
initialised from the classifier): one unconditional `make_23_move` with its
count updates and `successful_moves_` increment, then likewise for the (3,2)
and (2,6) moves. -/
def seedPhase (s : MetropolisState) : MetropolisState :=
  seed26Block (seed32Block (seed23Block s))

/-- Conversion of the main loop's random draw
`generate_random_unsigned(0, 2)` to a `move_type`
(`static_cast<move_type>(move_choice)`). -/
def moveOfChoice : Fin 3 → move_type
  | ⟨0, _⟩ => move_type.TWO_THREE
  | ⟨1, _⟩ => move_type.THREE_TWO
  | ⟨2, _⟩ => move_type.TWO_SIX
  | ⟨n + 3, h⟩ => absurd h (by omega)

/-- The main loop of `Metropolis::operator()`, iterating `attempt_move` on
the moves chosen by the random source.  `rand i` is the draw
`generate_random_unsigned(0, 2)` at iteration `i` and `accept i` the
outcome of the acceptance comparison at iteration `i`; `fuel` counts the
remaining iterations. -/
def mainLoopAux (rand : ℕ → Fin 3) (accept : ℕ → Bool) :
    ℕ → ℕ → MetropolisState → MetropolisState
  | _, 0, s => s
  | i, Nat.succ fuel, s =>
    mainLoopAux rand accept (i + 1) fuel
      (attempt_move (moveOfChoice (rand i)) (accept i) s)

/-- Count initialisation at the top of `Metropolis::operator()`: `N3_31_`,
`N3_22_` and `N1_TL_` are populated from the Move Classifier's snapshot
cardinalities, cast to `uintmax_t`. -/
def initializeCounts (n31 n22 n1 : ℕ) (s : MetropolisState) :
    MetropolisState :=
  { s with
    N3_31 := n31 % wordSize
    N3_22 := n22 % wordSize
    N1_TL := n1 % wordSize }

/-- The body of `Metropolis::operator()`: counts are populated from the
Move Classifier's snapshot cardinalities (`n31`, `n22`, `n1`, cast to
`uintmax_t`), the seeding phase runs, and the main loop performs
`total_simplices_this_pass = 10` move attempts — a hardcoded constant; the
`passes` argument mirrors the `passes_` member, which `operator()` never
reads. -/
def operatorRun (passes : ℕ) (rand : ℕ → Fin 3) (accept : ℕ → Bool)
    (n31 n22 n1 : ℕ) (s : MetropolisState) : MetropolisState :=
  mainLoopAux rand accept 0 10 (seedPhase (initializeCounts n31 n22 n1 s))

/-- Accessor `Metropolis::TotalMoves`: the sum (in `uintmax_t` arithmetic)
of the five `attempted_moves_` slots. -/
def TotalMoves (t : move_tuple) : ℕ :=
  (t.m0 + t.m1 + t.m2 + t.m3 + t.m4) % wordSize

/-- Accessor `Metropolis::SuccessfulSixTwoMoves`.  Its source doc comment
reads "Gets successful (6,2) moves", but the body returns
`std::get<3>(attempted_moves_)`. -/
def SuccessfulSixTwoMoves (s : MetropolisState) : ℕ := s.attempted_moves.m3

/-- Accessor `Metropolis::SuccessfulFourFourMoves`.  Its source doc comment
reads "Gets successful (4,4) moves", but the body returns
`std::get<4>(attempted_moves_)`. -/
def SuccessfulFourFourMoves (s : MetropolisState) : ℕ := s.attempted_moves.m4

/-- Accessor `Metropolis::SixTwoMoves`: attempted (6,2) moves. -/
def SixTwoMoves (s : MetropolisState) : ℕ := s.attempted_moves.m3

/-- Accessor `Metropolis::FourFourMoves`: attempted (4,4) moves. -/
def FourFourMoves (s : MetropolisState) : ℕ := s.attempted_moves.m4

/-- `Metropolis::CalculateA2`, instrumented with the list of argument
triples `(N1, N3_31, N3_22)` on which the Action Evaluator `S3_bulk_action`
is invoked, in call order.  `S` abstracts `S3_bulk_action` at the fixed
couplings `Alpha_`, `K_`, `Lambda_`, and `expA` the MPFR exponential
pipeline of the negative-exponent branch.  The source computes
`currentS3Action = S3_bulk_action(N1_TL_, N3_31_, N3_22_, ...)` before the
switch; the `FOUR_FOUR` case then returns `Gmpzf(1)` directly, while each
other case evaluates `newS3Action` on the shifted counts written in the
source (in `uintmax_t` arithmetic) and returns 1 when
`newS3Action - currentS3Action >= 0`, else the rounded exponential. -/
def CalculateA2 (S : ℕ → ℕ → ℕ → ℚ) (expA : ℚ → ℚ) (s : MetropolisState)
    (move : move_type) : ℚ × List (ℕ × ℕ × ℕ) :=
  let currentArgs : ℕ × ℕ × ℕ := (s.N1_TL, s.N3_31, s.N3_22)
  let currentS3Action := S s.N1_TL s.N3_31 s.N3_22
  match move with
  | move_type.TWO_THREE =>
    let a : ℕ × ℕ × ℕ := (wsub s.N1_TL 1, s.N3_31, winc s.N3_22)
    let newS3Action := S a.1 a.2.1 a.2.2
    let exponent := newS3Action - currentS3Action
    (if 0 ≤ exponent then 1 else expA exponent, [currentArgs, a])
  | move_type.THREE_TWO =>
    let a : ℕ × ℕ × ℕ := (winc s.N1_TL, s.N3_31, wsub s.N3_22 1)
    let newS3Action := S a.1 a.2.1 a.2.2
    let exponent := newS3Action - currentS3Action
    (if 0 ≤ exponent then 1 else expA exponent, [currentArgs, a])
  | move_type.TWO_SIX =>
    let a : ℕ × ℕ × ℕ := (wadd s.N1_TL 2, wadd s.N3_31 4, s.N3_22)
    let newS3Action := S a.1 a.2.1 a.2.2
    let exponent := newS3Action - currentS3Action
    (if 0 ≤ exponent then 1 else expA exponent, [currentArgs, a])
  | move_type.SIX_TWO =>
    let a : ℕ × ℕ × ℕ := (wsub s.N1_TL 2, s.N3_31, wsub s.N3_22 4)
    let newS3Action := S a.1 a.2.1 a.2.2
    let exponent := newS3Action - currentS3Action
    (if 0 ≤ exponent then 1 else expA exponent, [currentArgs, a])
  | move_type.FOUR_FOUR => (1, [currentArgs])

/-- The Configuration Count delta a move kind is declared to have by
Table 1 of the specification, as a function from pre-move counts to
post-move counts (in `uintmax_t` arithmetic). -/
def tableOneDelta (move : move_type) (c : ℕ × ℕ × ℕ) : ℕ × ℕ × ℕ :=
  match move with
  | move_type.TWO_THREE => (winc c.1, c.2.1, winc c.2.2)
  | move_type.THREE_TWO => (wsub c.1 1, c.2.1, wsub c.2.2 1)
  | move_type.TWO_SIX => (wadd c.1 2, wadd c.2.1 4, c.2.2)
  | move_type.SIX_TWO => (wsub c.1 2, wsub c.2.1 4, c.2.2)
  | move_type.FOUR_FOUR => c

/-- Modelled from the spec: the working precision `PRECISION` is an
`extern const unsigned` whose defining translation unit is not among the
analysed sources; the spec fixes the dynamical-ratio working precision as
"fixed working precision (documented, e.g. 256 bits)". -/
def PRECISION : ℕ := 256

/-- Correct rounding of a nonnegative rational toward minus infinity
(`MPFR_RNDD`) at `p` significant binary digits: the largest `p`-bit binary
floating-point value not exceeding `q`.  Nonpositive inputs (which the
`CalculateA1` pipeline never produces except an exact 0) round to 0.  The
bounded exponent range of the formats involved is not modelled: the
quotients of interest lie well inside every format's range. -/
def floatRoundDown (p : ℕ) (q : ℚ) : ℚ :=
  if q ≤ 0 then 0
  else
    let s : ℤ := (p : ℤ) - 1 - Int.log 2 q
    ((⌊q * (2 : ℚ) ^ s⌋ : ℤ) : ℚ) / (2 : ℚ) ^ s

/-- The numerator `mpfr_init_set_ui` receives in `Metropolis::CalculateA1`.
The source declares `auto this_move = 5;` — an `int` — and the `switch`
assigns the selected `uintmax_t` counter into it, a narrowing conversion
that wraps to the two's-complement 32-bit range of `int` on the reference
compilers; `mpfr_init_set_ui`'s `unsigned long` parameter (64 bits on the
reference platform) then converts that `int` modulo `2^64`.  A counter
whose low 32 bits stay below `2^31` survives unchanged; one whose low
32 bits reach `2^31` becomes `2^64 - 2^32 + (counter mod 2^32)`. -/
def this_move_ui (t : move_tuple) (move : move_type) : ℕ :=
  let r := t.slot move % 2 ^ 32
  if r < 2 ^ 31 then r else 2 ^ 64 - 2 ^ 32 + r

/-- `Metropolis::CalculateA1`: `this_move` is the `attempted_moves_` slot
selected by the `switch`, narrowed through the `int this_move` and
converted back for `mpfr_init_set_ui` (`this_move_ui`); `total_moves` is
`TotalMoves()`.  The quotient is computed by `mpfr_div` at `PRECISION` bits
rounding down (both operands, being below `2^64 ≤ 2^PRECISION`, convert
exactly into MPFR), and the result is converted through
`mpfr_get_d(..., MPFR_RNDD)` — a further rounding down to the 53-bit
`double` format — before being wrapped as a `Gmpzf`. -/
def CalculateA1 (attempted : move_tuple) (move : move_type) : ℚ :=
  let total_moves := TotalMoves attempted
  floatRoundDown 53
    (floatRoundDown PRECISION
      ((this_move_ui attempted move : ℚ) / (total_moves : ℚ)))

/-- A rational number exactly representable in binary floating point with
unbounded exponent and mantissa: an integer divided by a power of two. -/
def isDyadic (q : ℚ) : Prop := ∃ m : ℤ, ∃ k : ℕ, q = (m : ℚ) / 2 ^ k

lemma floatRoundDown_nonneg (p : ℕ) (q : ℚ) : 0 ≤ floatRoundDown p q := by
  unfold floatRoundDown
  split
  · exact le_refl 0
  · rename_i hq
    push_neg at hq
    have h2 : (0 : ℚ) < (2 : ℚ) ^ ((p : ℤ) - 1 - Int.log 2 q) :=
      zpow_pos (by norm_num) _
    apply div_nonneg _ (le_of_lt h2)
    have : (0 : ℤ) ≤ ⌊q * (2 : ℚ) ^ ((p : ℤ) - 1 - Int.log 2 q)⌋ := by
      apply Int.floor_nonneg.mpr
      exact mul_nonneg (le_of_lt hq) (le_of_lt h2)
    exact_mod_cast this

lemma floatRoundDown_le (p : ℕ) (q : ℚ) (hq : 0 ≤ q) :
    floatRoundDown p q ≤ q := by
  unfold floatRoundDown
  split
  · rename_i h
    exact hq
  · rename_i h
    push_neg at h
    have h2 : (0 : ℚ) < (2 : ℚ) ^ ((p : ℤ) - 1 - Int.log 2 q) :=
      zpow_pos (by norm_num) _
    rw [div_le_iff₀ h2]
    exact Int.floor_le _

lemma int_div_zpow_isDyadic (n : ℤ) (s : ℤ) :
    isDyadic ((n : ℚ) / (2 : ℚ) ^ s) := by
  rcases le_or_lt 0 s with hpos | hneg
  · refine ⟨n, s.toNat, ?_⟩
    congr 1
    rw [← zpow_natCast (2 : ℚ) s.toNat, Int.toNat_of_nonneg hpos]
  · refine ⟨n * 2 ^ (-s).toNat, 0, ?_⟩
    have ht : (((-s).toNat : ℤ)) = -s := Int.toNat_of_nonneg (by omega)
    have h2 : (2 : ℚ) ^ s = ((2 : ℚ) ^ (-s).toNat)⁻¹ := by
      rw [← zpow_natCast (2 : ℚ) (-s).toNat, ← zpow_neg]
      congr 1
      omega
    rw [h2, pow_zero, div_one, div_eq_mul_inv, inv_inv]
    push_cast
    ring

lemma floatRoundDown_isDyadic (p : ℕ) (q : ℚ) :
    isDyadic (floatRoundDown p q) := by
  unfold floatRoundDown
  split
  · exact ⟨0, 0, by norm_num⟩
  · exact int_div_zpow_isDyadic _ _

lemma one_third_not_dyadic : ¬ isDyadic ((1 : ℚ) / 3) := by
  rintro ⟨m, k, hmk⟩
  have h2 : ((2 : ℚ) ^ k) ≠ 0 := by positivity
  have h3 : ((2 : ℚ) ^ k) = 3 * m := by
    field_simp at hmk
    linarith [hmk]
  have h3' : ((2 : ℤ) ^ k) = 3 * m := by
    exact_mod_cast h3
  have hdvd : (3 : ℤ) ∣ 2 ^ k := ⟨m, h3'⟩
  have hp : Prime (3 : ℤ) := by norm_num
  have : (3 : ℤ) ∣ 2 := hp.dvd_of_dvd_pow hdvd
  norm_num at this

/-- One externally triggered step of a `Metropolis` run, as performed by
`operator()`: re-initialisation of the counts from the Move Classifier, one
of the three unconditional seeding blocks, or one `attempt_move` call with
a given proposal kind and acceptance outcome. -/
inductive RunStep where
  | initCounts (n31 n22 n1 : ℕ) : RunStep
  | seed23 : RunStep
  | seed32 : RunStep
  | seed26 : RunStep
  | attempt (move : move_type) (accepted : Bool) : RunStep
deriving DecidableEq, Repr

/-- Effect of a single `RunStep` on the `Metropolis` state. -/
def runStep : RunStep → MetropolisState → MetropolisState
  | RunStep.initCounts n31 n22 n1, s => initializeCounts n31 n22 n1 s
  | RunStep.seed23, s => seed23Block s
  | RunStep.seed32, s => seed32Block s
  | RunStep.seed26, s => seed26Block s
  | RunStep.attempt move accepted, s => attempt_move move accepted s

/-- Effect of a sequence of `RunStep`s, first step first. -/
def runSteps : List RunStep → MetropolisState → MetropolisState
  | [], s => s
  | st :: l, s => runSteps l (runStep st s)

/-- The Move-Statistics invariant: each kind's successful counter is at most
its attempted counter. -/
def counterInv (s : MetropolisState) : Prop :=
  s.successful_moves.m0 ≤ s.attempted_moves.m0 ∧
  s.successful_moves.m1 ≤ s.attempted_moves.m1 ∧
  s.successful_moves.m2 ≤ s.attempted_moves.m2 ∧
  s.successful_moves.m3 ≤ s.attempted_moves.m3 ∧
  s.successful_moves.m4 ≤ s.attempted_moves.m4

instance (s : MetropolisState) : Decidable (counterInv s) := by
  unfold counterInv; infer_instance

/-- All ten move counters of a state are at most `b`: the bookkeeping bound
that rules `uintmax_t` wraparound out while a run is in progress. -/
def countersBounded (s : MetropolisState) (b : ℕ) : Prop :=
  s.attempted_moves.m0 ≤ b ∧ s.attempted_moves.m1 ≤ b ∧
  s.attempted_moves.m2 ≤ b ∧ s.attempted_moves.m3 ≤ b ∧
  s.attempted_moves.m4 ≤ b ∧
  s.successful_moves.m0 ≤ b ∧ s.successful_moves.m1 ≤ b ∧
  s.successful_moves.m2 ≤ b ∧ s.successful_moves.m3 ≤ b ∧
  s.successful_moves.m4 ≤ b

instance (s : MetropolisState) (b : ℕ) : Decidable (countersBounded s b) := by
  unfold countersBounded; infer_instance

lemma runStep_preserves (st : RunStep) (s : MetropolisState) (b : ℕ)
    (hb : b + 1 < wordSize) (hB : countersBounded s b) (hI : counterInv s) :
    countersBounded (runStep st s) (b + 1) ∧ counterInv (runStep st s) := by
  obtain ⟨hb0, hb1, hb2, hb3, hb4, hc0, hc1, hc2, hc3, hc4⟩ := hB
  obtain ⟨hi0, hi1, hi2, hi3, hi4⟩ := hI
  have hW : wordSize = 2 ^ 64 := rfl
  cases st with
  | initCounts n31 n22 n1 =>
    simp only [runStep, initializeCounts, countersBounded, counterInv] at *
    omega
  | seed23 =>
    simp only [runStep, seed23Block, make_23_move, move_tuple.bump, winc,
      countersBounded, counterInv, hW] at *
    omega
  | seed32 =>
    simp only [runStep, seed32Block, make_32_move, move_tuple.bump, winc,
      countersBounded, counterInv, hW] at *
    omega
  | seed26 =>
    simp only [runStep, seed26Block, make_26_move, move_tuple.bump, winc,
      countersBounded, counterInv, hW] at *
    omega
  | attempt move accepted =>
    cases move <;> cases accepted <;>
      (simp only [runStep, attempt_move, make_23_move, make_32_move,
        make_26_move, move_tuple.bump, winc, Bool.false_eq_true, if_false,
        if_true, countersBounded, counterInv, hW] at *) <;>
      omega

lemma runSteps_inv (l : List RunStep) (s : MetropolisState) (b : ℕ)
    (hb : b + l.length < wordSize) (hB : countersBounded s b)
    (hI : counterInv s) : counterInv (runSteps l s) := by
  induction l generalizing s b with
  | nil => exact hI
  | cons st l ih =>
    have h1 : b + 1 < wordSize := by
      simp only [List.length_cons] at hb
      omega
    obtain ⟨hB', hI'⟩ := runStep_preserves st s b h1 hB hI
    refine ih (runStep st s) (b + 1) ?_ hB' hI'
    simp only [List.length_cons] at hb
    omega

/-- Example state used to evaluate the engine at a concrete configuration:
Configuration Counts `(N1_TL, N3_31, N3_22) = (10, 10, 10)`, all move
counters zero. -/
def sExample : MetropolisState :=
  { N1_TL := 10
    N3_31 := 10
    N3_22 := 10
    attempted_moves := ⟨0, 0, 0, 0, 0⟩
    successful_moves := ⟨0, 0, 0, 0, 0⟩
    executorCalls := []
    attemptMoveInvocations := 0 }

/-- Example state with distinct attempted and successful counters for the
(6,2) and (4,4) kinds: 5 attempted / 2 successful (6,2) moves and
7 attempted / 3 successful (4,4) moves. -/
def sCounterExample : MetropolisState :=
  { N1_TL := 10
    N3_31 := 10
    N3_22 := 10
    attempted_moves := ⟨0, 0, 0, 5, 7⟩
    successful_moves := ⟨0, 0, 0, 2, 3⟩
    executorCalls := []
    attemptMoveInvocations := 0 }

/-- A trivial stand-in for the external Action Evaluator, used when only
the invocation trace of `CalculateA2` matters. -/
def zeroAction : ℕ → ℕ → ℕ → ℚ := fun _ _ _ => 0

/-- A trivial stand-in for the MPFR exponential pipeline, used when only
the invocation trace of `CalculateA2` matters. -/
def zeroExp : ℚ → ℚ := fun _ => 0

/-- C1: the claim states that `CalculateA2` evaluates the hypothetical
action at the current counts plus the kind's Table 1 row — for `TwoThree`
at `(N1_TL+1, N3_31, N3_22+1)`, for `ThreeTwo` at `(N1_TL−1, N3_31,
N3_22−1)`, for `TwoSix` at `(N1_TL+2, N3_31+4, N3_22)` and for `SixTwo` at
`(N1_TL−2, N3_31−4, N3_22)`.  Evaluating the embedded code at counts
`(10, 10, 10)` shows the `TwoSix` row is honoured but the code passes
sign-flipped `N1_TL` shifts for `TwoThree`/`ThreeTwo` and shifts `N3_22`
instead of `N3_31` for `SixTwo`, while `tableOneDelta` records what the
claim (and the code's own comments and `attempt_move` branch) expect. -/
theorem C1_calculateA2_hypothetical_args_diverge_from_table_one :
    (CalculateA2 zeroAction zeroExp sExample move_type.SIX_TWO).2 =
      [(10, 10, 10), (8, 10, 6)] ∧
    tableOneDelta move_type.SIX_TWO (10, 10, 10) = (8, 6, 10) ∧
    ((8, 10, 6) : ℕ × ℕ × ℕ) ≠ (8, 6, 10) ∧
    (CalculateA2 zeroAction zeroExp sExample move_type.TWO_THREE).2 =
      [(10, 10, 10), (9, 10, 11)] ∧
    tableOneDelta move_type.TWO_THREE (10, 10, 10) = (11, 10, 11) ∧
    ((9, 10, 11) : ℕ × ℕ × ℕ) ≠ (11, 10, 11) ∧
    (CalculateA2 zeroAction zeroExp sExample move_type.THREE_TWO).2 =
      [(10, 10, 10), (11, 10, 9)] ∧
    tableOneDelta move_type.THREE_TWO (10, 10, 10) = (9, 10, 9) ∧
    ((11, 10, 9) : ℕ × ℕ × ℕ) ≠ (9, 10, 9) ∧
    (CalculateA2 zeroAction zeroExp sExample move_type.TWO_SIX).2 =
      [(10, 10, 10), (12, 14, 10)] ∧
    tableOneDelta move_type.TWO_SIX (10, 10, 10) = (12, 14, 10) := by
  decide

/-- C2: the claim states that every accepted move shifts the Configuration
Counts by its Table 1 row, in particular an accepted `SixTwo` by
`(−2, −4, 0)`.  Evaluating the embedded `attempt_move` at counts
`(10, 10, 10)` on an accepted `SixTwo` move shows the counts are left
unchanged at `(10, 10, 10)`, not moved to the `(8, 6, 10)` the Table 1 row
requires. -/
theorem C2_accepted_sixTwo_moves_no_counts :
    ((attempt_move move_type.SIX_TWO true sExample).N1_TL,
     (attempt_move move_type.SIX_TWO true sExample).N3_31,
     (attempt_move move_type.SIX_TWO true sExample).N3_22) = (10, 10, 10) ∧
    tableOneDelta move_type.SIX_TWO (10, 10, 10) = (8, 6, 10) ∧
    ((10, 10, 10) : ℕ × ℕ × ℕ) ≠ (8, 6, 10) := by
  decide

/-- C5: the claim states that `SuccessfulSixTwoMoves()` and
`SuccessfulFourFourMoves()` return the successful counters.  On a state
with 5 attempted / 2 successful (6,2) moves and 7 attempted / 3 successful
(4,4) moves, the embedded accessors return the attempted counters 5 and 7,
not the successful counters 2 and 3. -/
theorem C5_successful_accessors_return_attempted_counters :
    SuccessfulSixTwoMoves sCounterExample = 5 ∧
    sCounterExample.successful_moves.m3 = 2 ∧
    SuccessfulFourFourMoves sCounterExample = 7 ∧
    sCounterExample.successful_moves.m4 = 3 ∧
    (5 : ℕ) ≠ 2 ∧ (7 : ℕ) ≠ 3 := by
  decide

/-- C7: an accepted `SixTwo` or `FourFour` move leaves the Configuration
Counts, the successful counters and the attempted counters all unchanged:
the acceptance-branch bodies for these two kinds perform no counter or
count mutation. -/
theorem C7_accepted_sixTwo_fourFour_mutate_nothing (s : MetropolisState) :
    (attempt_move move_type.SIX_TWO true s).N1_TL = s.N1_TL ∧
    (attempt_move move_type.SIX_TWO true s).N3_31 = s.N3_31 ∧
    (attempt_move move_type.SIX_TWO true s).N3_22 = s.N3_22 ∧
    (attempt_move move_type.SIX_TWO true s).successful_moves =
      s.successful_moves ∧
    (attempt_move move_type.SIX_TWO true s).attempted_moves =
      s.attempted_moves ∧
    (attempt_move move_type.FOUR_FOUR true s).N1_TL = s.N1_TL ∧
    (attempt_move move_type.FOUR_FOUR true s).N3_31 = s.N3_31 ∧
    (attempt_move move_type.FOUR_FOUR true s).N3_22 = s.N3_22 ∧
    (attempt_move move_type.FOUR_FOUR true s).successful_moves =
      s.successful_moves ∧
    (attempt_move move_type.FOUR_FOUR true s).attempted_moves =
      s.attempted_moves :=
  ⟨rfl, rfl, rfl, rfl, rfl, rfl, rfl, rfl, rfl, rfl⟩

/-- C3: the claim states that `operator()` executes the per-pass attempt
budget once per configured pass, so the number of main-loop attempts
depends on `passes`.  In the embedded code the run performs exactly 10
`attempt_move` invocations (the hardcoded `total_simplices_this_pass`)
regardless of `passes`: with `passes = 2` the run still makes 10 attempts,
not `2 * 10`, and the run's result is the same function of the random
source for any two values of `passes`. -/
theorem C3_attempt_budget_ignores_passes :
    (operatorRun 2 (fun _ => 0) (fun _ => false) 5 5 5
      initialState).attemptMoveInvocations = 10 ∧
    (∀ (p p' : ℕ) (rand : ℕ → Fin 3) (accept : ℕ → Bool)
      (n31 n22 n1 : ℕ) (s : MetropolisState),
      operatorRun p rand accept n31 n22 n1 s =
        operatorRun p' rand accept n31 n22 n1 s) ∧
    (10 : ℕ) ≠ 2 * 10 := by
  refine ⟨by decide, fun p p' rand accept n31 n22 n1 s => rfl, by decide⟩

/-- C4 counterexample: the claim states that `CalculateA2(FourFour)` does
not invoke the Action Evaluator.  Evaluating the embedded `CalculateA2` at
counts `(10, 10, 10)` on `FOUR_FOUR` shows `S3_bulk_action` is invoked
once — for `currentS3Action`, computed before the switch — so the
invocation trace has length 1, not 0. -/
theorem C4_fourFour_calls_action_evaluator_once :
    (CalculateA2 zeroAction zeroExp sExample move_type.FOUR_FOUR).2.length
      = 1 ∧ (1 : ℕ) ≠ 0 := by
  decide

/-- C4 (amended): `CalculateA2` on `FOUR_FOUR` returns exactly 1 on every
configuration and for every Action Evaluator, but the Action Evaluator is
invoked exactly once on that path, on the current counts (the hypothetical
action is never evaluated). -/
theorem C4_fourFour_returns_one_action_called_on_current_only
    (S : ℕ → ℕ → ℕ → ℚ) (expA : ℚ → ℚ) (s : MetropolisState) :
    (CalculateA2 S expA s move_type.FOUR_FOUR).1 = 1 ∧
    (CalculateA2 S expA s move_type.FOUR_FOUR).2 =
      [(s.N1_TL, s.N3_31, s.N3_22)] :=
  ⟨rfl, rfl⟩

/-- C6 counterexample: the claim states that `CalculateA1` returns exactly
`attempted[kind] / totalAttempted` with no precision-losing rounding.  With
attempted counters `(1, 1, 1, 0, 0)` and kind `TwoThree` the exact quotient
is `1/3`, which is not a dyadic rational, while the embedded pipeline
(MPFR division rounded down, then conversion to `double`) can only return
dyadic rationals — so the exact quotient is not returned. -/
theorem C6_one_third_quotient_not_returned_exactly :
    ((⟨1, 1, 1, 0, 0⟩ : move_tuple).slot move_type.TWO_THREE : ℚ) /
      (TotalMoves ⟨1, 1, 1, 0, 0⟩ : ℚ) = 1 / 3 ∧
    CalculateA1 ⟨1, 1, 1, 0, 0⟩ move_type.TWO_THREE ≠ 1 / 3 := by
  constructor
  · norm_num [move_tuple.slot, TotalMoves, wordSize]
  · have hd : isDyadic (CalculateA1 ⟨1, 1, 1, 0, 0⟩ move_type.TWO_THREE) := by
      unfold CalculateA1
      exact floatRoundDown_isDyadic _ _
    intro h
    rw [h] at hd
    exact one_third_not_dyadic hd

lemma this_move_ui_of_small (t : move_tuple) (m : move_type)
    (h : t.slot m < 2 ^ 31) : this_move_ui t m = t.slot m := by
  unfold this_move_ui
  rw [Nat.mod_eq_of_lt (by omega)]
  exact if_pos h

/-- C6 (amended): for every attempted-counter tuple with positive total
whose counter for the requested kind is below `2^31` — the range on which
the source's narrowing of the `uintmax_t` counter into the `int this_move`
is value-preserving — `CalculateA1` returns a downward-rounded dyadic
approximation of `attempted[kind] / totalAttempted`: the returned value
never exceeds the exact quotient and is always a dyadic rational (hence
equals the exact quotient only when that quotient is itself dyadic).  For
a counter at or above `2^31` the narrowing wraps, `mpfr_init_set_ui`
receives `2^64 - 2^32 + (counter mod 2^32)`, and the returned value can
vastly exceed the exact quotient. -/
theorem C6_calculateA1_downward_dyadic_approximation (t : move_tuple)
    (m : move_type) (h : 0 < TotalMoves t)
    (hsmall : t.slot m < 2 ^ 31) :
    CalculateA1 t m ≤ (t.slot m : ℚ) / (TotalMoves t : ℚ) ∧
    isDyadic (CalculateA1 t m) := by
  have hcalc : CalculateA1 t m =
      floatRoundDown 53 (floatRoundDown PRECISION
        ((t.slot m : ℚ) / (TotalMoves t : ℚ))) := by
    unfold CalculateA1
    rw [this_move_ui_of_small t m hsmall]
  constructor
  · have hq : (0 : ℚ) ≤ (t.slot m : ℚ) / (TotalMoves t : ℚ) :=
      div_nonneg (by positivity) (by positivity)
    rw [hcalc]
    calc floatRoundDown 53 (floatRoundDown PRECISION
          ((t.slot m : ℚ) / (TotalMoves t : ℚ)))
        ≤ floatRoundDown PRECISION
            ((t.slot m : ℚ) / (TotalMoves t : ℚ)) :=
          floatRoundDown_le 53 _ (floatRoundDown_nonneg _ _)
      _ ≤ _ := floatRoundDown_le PRECISION _ hq
  · rw [hcalc]
    exact floatRoundDown_isDyadic _ _

/-- C6 witness: the amended statement instantiated at attempted counters
`(2, 1, 1, 0, 0)` and kind `TwoThree`, whose total 4 is positive and whose
(2,3) counter 2 is below `2^31`. -/
theorem C6_calculateA1_downward_dyadic_approximation_witness :
    0 < TotalMoves ⟨2, 1, 1, 0, 0⟩ ∧
    (⟨2, 1, 1, 0, 0⟩ : move_tuple).slot move_type.TWO_THREE < 2 ^ 31 ∧
    (CalculateA1 ⟨2, 1, 1, 0, 0⟩ move_type.TWO_THREE ≤
      ((⟨2, 1, 1, 0, 0⟩ : move_tuple).slot move_type.TWO_THREE : ℚ) /
        (TotalMoves ⟨2, 1, 1, 0, 0⟩ : ℚ) ∧
     isDyadic (CalculateA1 ⟨2, 1, 1, 0, 0⟩ move_type.TWO_THREE)) :=
  ⟨by decide, by decide,
   C6_calculateA1_downward_dyadic_approximation ⟨2, 1, 1, 0, 0⟩
     move_type.TWO_THREE (by decide) (by decide)⟩

/-- C8: a rejected proposal of any kind leaves the Configuration Counts,
every successful counter and the Move Executor invocation trace unchanged,
and changes the attempted counters exactly by incrementing the proposed
kind's slot. -/
theorem C8_rejected_proposal_increments_only_attempted
    (move : move_type) (s : MetropolisState) :
    (attempt_move move false s).N1_TL = s.N1_TL ∧
    (attempt_move move false s).N3_31 = s.N3_31 ∧
    (attempt_move move false s).N3_22 = s.N3_22 ∧
    (attempt_move move false s).successful_moves = s.successful_moves ∧
    (attempt_move move false s).executorCalls = s.executorCalls ∧
    (∀ k : move_type,
      (attempt_move move false s).attempted_moves.slot k =
        if k = move then winc (s.attempted_moves.slot k)
        else s.attempted_moves.slot k) := by
  refine ⟨rfl, rfl, rfl, rfl, rfl, ?_⟩
  intro k
  cases move <;> cases k <;>
    simp [attempt_move, move_tuple.bump, move_tuple.slot]

/-- C9: starting from the freshly constructed state, after any sequence of
run steps (count re-initialisations, seeding blocks and `attempt_move`
calls with arbitrary proposal kinds and acceptance outcomes) shorter than
`2^64` — so in particular after construction, after seeding and after each
`attempt_move` of any actual run, whose Move Executor increments the shared
attempted counter exactly once per invocation — every kind's attempted
counter is at least its successful counter. -/
theorem C9_attempted_ge_successful (l : List RunStep)
    (h : l.length < wordSize) : counterInv (runSteps l initialState) := by
  apply runSteps_inv l initialState 0
  · simpa using h
  · decide
  · decide

/-- C9 witness: the invariant after a concrete short run — one (2,3)
seeding block, a rejected (3,2) attempt and an accepted (6,2) attempt. -/
theorem C9_attempted_ge_successful_witness :
    ([RunStep.seed23, RunStep.attempt move_type.THREE_TWO false,
      RunStep.attempt move_type.SIX_TWO true] : List RunStep).length <
        wordSize ∧
    counterInv (runSteps
      [RunStep.seed23, RunStep.attempt move_type.THREE_TWO false,
       RunStep.attempt move_type.SIX_TWO true] initialState) :=
  ⟨by decide, C9_attempted_ge_successful _ (by decide)⟩

/-- The (6,2)/(4,4) slots of the two counter tuples: attempted (6,2),
attempted (4,4), successful (6,2), successful (4,4). -/
def slots34 (s : MetropolisState) : ℕ × ℕ × ℕ × ℕ :=
  (s.attempted_moves.m3, s.attempted_moves.m4,
   s.successful_moves.m3, s.successful_moves.m4)

lemma bump23_keeps34 (t : move_tuple) :
    (t.bump move_type.TWO_THREE).m3 = t.m3 ∧
    (t.bump move_type.TWO_THREE).m4 = t.m4 := ⟨rfl, rfl⟩

lemma bump32_keeps34 (t : move_tuple) :
    (t.bump move_type.THREE_TWO).m3 = t.m3 ∧
    (t.bump move_type.THREE_TWO).m4 = t.m4 := ⟨rfl, rfl⟩

lemma bump26_keeps34 (t : move_tuple) :
    (t.bump move_type.TWO_SIX).m3 = t.m3 ∧
    (t.bump move_type.TWO_SIX).m4 = t.m4 := ⟨rfl, rfl⟩

lemma seed23Block_counters (s : MetropolisState) :
    (seed23Block s).attempted_moves =
      s.attempted_moves.bump move_type.TWO_THREE ∧
    (seed23Block s).successful_moves =
      s.successful_moves.bump move_type.TWO_THREE := ⟨rfl, rfl⟩

lemma seed32Block_counters (s : MetropolisState) :
    (seed32Block s).attempted_moves =
      s.attempted_moves.bump move_type.THREE_TWO ∧
    (seed32Block s).successful_moves =
      s.successful_moves.bump move_type.THREE_TWO := ⟨rfl, rfl⟩

lemma seed26Block_counters (s : MetropolisState) :
    (seed26Block s).attempted_moves =
      s.attempted_moves.bump move_type.TWO_SIX ∧
    (seed26Block s).successful_moves =
      s.successful_moves.bump move_type.TWO_SIX := ⟨rfl, rfl⟩

lemma slots34_seed23Block (s : MetropolisState) :
    slots34 (seed23Block s) = slots34 s := by
  unfold slots34
  rw [(seed23Block_counters s).1, (seed23Block_counters s).2,
    (bump23_keeps34 s.attempted_moves).1, (bump23_keeps34 s.attempted_moves).2,
    (bump23_keeps34 s.successful_moves).1,
    (bump23_keeps34 s.successful_moves).2]

lemma slots34_seed32Block (s : MetropolisState) :
    slots34 (seed32Block s) = slots34 s := by
  unfold slots34
  rw [(seed32Block_counters s).1, (seed32Block_counters s).2,
    (bump32_keeps34 s.attempted_moves).1, (bump32_keeps34 s.attempted_moves).2,
    (bump32_keeps34 s.successful_moves).1,
    (bump32_keeps34 s.successful_moves).2]

lemma slots34_seed26Block (s : MetropolisState) :
    slots34 (seed26Block s) = slots34 s := by
  unfold slots34
  rw [(seed26Block_counters s).1, (seed26Block_counters s).2,
    (bump26_keeps34 s.attempted_moves).1, (bump26_keeps34 s.attempted_moves).2,
    (bump26_keeps34 s.successful_moves).1,
    (bump26_keeps34 s.successful_moves).2]

lemma slots34_seedPhase (s : MetropolisState) :
    slots34 (seedPhase s) = slots34 s := by
  unfold seedPhase
  rw [slots34_seed26Block, slots34_seed32Block, slots34_seed23Block]

lemma attempt_move_23_counters (a : Bool) (s : MetropolisState) :
    (attempt_move move_type.TWO_THREE a s).attempted_moves =
      s.attempted_moves.bump move_type.TWO_THREE ∧
    ((attempt_move move_type.TWO_THREE a s).successful_moves =
        s.successful_moves.bump move_type.TWO_THREE ∨
      (attempt_move move_type.TWO_THREE a s).successful_moves =
        s.successful_moves) := by
  cases a
  · exact ⟨rfl, Or.inr rfl⟩
  · exact ⟨rfl, Or.inl rfl⟩

lemma attempt_move_32_counters (a : Bool) (s : MetropolisState) :
    (attempt_move move_type.THREE_TWO a s).attempted_moves =
      s.attempted_moves.bump move_type.THREE_TWO ∧
    ((attempt_move move_type.THREE_TWO a s).successful_moves =
        s.successful_moves.bump move_type.THREE_TWO ∨
      (attempt_move move_type.THREE_TWO a s).successful_moves =
        s.successful_moves) := by
  cases a
  · exact ⟨rfl, Or.inr rfl⟩
  · exact ⟨rfl, Or.inl rfl⟩

lemma attempt_move_26_counters (a : Bool) (s : MetropolisState) :
    (attempt_move move_type.TWO_SIX a s).attempted_moves =
      s.attempted_moves.bump move_type.TWO_SIX ∧
    ((attempt_move move_type.TWO_SIX a s).successful_moves =
        s.successful_moves.bump move_type.TWO_SIX ∨
      (attempt_move move_type.TWO_SIX a s).successful_moves =
        s.successful_moves) := by
  cases a
  · exact ⟨rfl, Or.inr rfl⟩
  · exact ⟨rfl, Or.inl rfl⟩

lemma slots34_attempt_of_choice (j : Fin 3) (a : Bool)
    (s : MetropolisState) :
    slots34 (attempt_move (moveOfChoice j) a s) = slots34 s := by
  rcases j with ⟨jv, hj⟩
  rcases jv with _ | _ | _ | n
  · show slots34 (attempt_move move_type.TWO_THREE a s) = slots34 s
    unfold slots34
    rw [(attempt_move_23_counters a s).1,
      (bump23_keeps34 s.attempted_moves).1,
      (bump23_keeps34 s.attempted_moves).2]
    rcases (attempt_move_23_counters a s).2 with h | h <;>
      rw [h] <;>
      simp only [(bump23_keeps34 s.successful_moves).1,
        (bump23_keeps34 s.successful_moves).2]
  · show slots34 (attempt_move move_type.THREE_TWO a s) = slots34 s
    unfold slots34
    rw [(attempt_move_32_counters a s).1,
      (bump32_keeps34 s.attempted_moves).1,
      (bump32_keeps34 s.attempted_moves).2]
    rcases (attempt_move_32_counters a s).2 with h | h <;>
      rw [h] <;>
      simp only [(bump32_keeps34 s.successful_moves).1,
        (bump32_keeps34 s.successful_moves).2]
  · show slots34 (attempt_move move_type.TWO_SIX a s) = slots34 s
    unfold slots34
    rw [(attempt_move_26_counters a s).1,
      (bump26_keeps34 s.attempted_moves).1,
      (bump26_keeps34 s.attempted_moves).2]
    rcases (attempt_move_26_counters a s).2 with h | h <;>
      rw [h] <;>
      simp only [(bump26_keeps34 s.successful_moves).1,
        (bump26_keeps34 s.successful_moves).2]
  · exact absurd hj (by omega)

lemma slots34_mainLoopAux (rand : ℕ → Fin 3) (accept : ℕ → Bool)
    (i fuel : ℕ) (s : MetropolisState) :
    slots34 (mainLoopAux rand accept i fuel s) = slots34 s := by
  induction fuel generalizing i s with
  | zero => rfl
  | succ fuel ih =>
    rw [mainLoopAux, ih, slots34_attempt_of_choice]

/-- C10: a single invocation of `operator()` never proposes or executes a
(6,2) or (4,4) move: the main loop's random choice (drawn from `{0,1,2}`)
never maps to those kinds, and starting from the freshly constructed state
the attempted and successful counters for both kinds are 0 after seeding,
after every prefix of the main loop, and after the full run, for every
random source, acceptance outcome sequence, classifier snapshot and
configured number of passes. -/
theorem C10_sixTwo_fourFour_never_proposed (passes : ℕ)
    (rand : ℕ → Fin 3) (accept : ℕ → Bool) (n31 n22 n1 i fuel : ℕ) :
    (∀ j : Fin 3, moveOfChoice j ≠ move_type.SIX_TWO ∧
      moveOfChoice j ≠ move_type.FOUR_FOUR) ∧
    slots34 (mainLoopAux rand accept i fuel
      (seedPhase (initializeCounts n31 n22 n1 initialState))) =
        (0, 0, 0, 0) ∧
    slots34 (operatorRun passes rand accept n31 n22 n1 initialState) =
      (0, 0, 0, 0) := by
  refine ⟨fun j => ?_, ?_, ?_⟩
  · rcases j with ⟨jv, hj⟩
    rcases jv with _ | _ | _ | n
    · exact ⟨fun h => move_type.noConfusion h, fun h => move_type.noConfusion h⟩
    · exact ⟨fun h => move_type.noConfusion h, fun h => move_type.noConfusion h⟩
    · exact ⟨fun h => move_type.noConfusion h, fun h => move_type.noConfusion h⟩
    · exact absurd hj (by omega)
  · rw [slots34_mainLoopAux, slots34_seedPhase]
    rfl
  · show slots34 (mainLoopAux rand accept 0 10
      (seedPhase (initializeCounts n31 n22 n1 initialState))) = (0, 0, 0, 0)
    rw [slots34_mainLoopAux, slots34_seedPhase]
    rfl
